import Mathlib

/-!
Verification of the Linux-syscall compatibility layer of WenyiOS
(`api/src/imp/fs/stat.rs` and `api/src/imp/resources.rs`) against its
natural-language specification.

The syscalls are shallowly embedded as pure Lean functions.  External
collaborators (the filesystem backend, the descriptor table, the process
registry, the user-memory map) appear as explicit parameters, so every
theorem quantifies over all of their behaviours.  Rust `panic!`s caused by
`unwrap()` on user-controlled failures are made observable through a
dedicated `panicked` outcome.
-/

set_option autoImplicit false
set_option linter.unusedVariables false

namespace WenyiOS

/-- Linux errno-equivalent values used by this layer (`axerrno::LinuxError`,
restricted to the closed taxonomy the spec names in section 7). -/
inductive LinuxError where
  | EACCES
  | EBADF
  | EFAULT
  | EINVAL
  | EISDIR
  | ENOENT
  | ENOTDIR
  | EPERM
  | ESRCH
  deriving DecidableEq, Repr

/-- Backend error kind (`axerrno::AxError`), restricted to the kinds this
layer inspects or forwards. -/
inductive AxError where
  | NotFound
  | PermissionDenied
  | IsADirectory
  | NotADirectory
  | InvalidInput
  deriving DecidableEq, Repr

/-- The `From<AxError> for LinuxError` conversion applied by `?` and by
`e.into()` in the Rust sources. -/
def AxError.toLinuxError : AxError → LinuxError
  | .NotFound => .ENOENT
  | .PermissionDenied => .EACCES
  | .IsADirectory => .EISDIR
  | .NotADirectory => .ENOTDIR
  | .InvalidInput => .EINVAL

/-- Outcome of a syscall once Rust panics are made observable: a normal
return value, a typed errno failure, or a `panic!` (reached through
`Option::unwrap` / `Result::unwrap` on a failed value). -/
inductive SysOut (α : Type) where
  | ok (v : α)
  | err (e : LinuxError)
  | panicked
  deriving DecidableEq, Repr

/-- Modelled from the spec: `Kstat`, the metadata record returned by the
File-Like abstraction (spec section 3); its concrete Rust definition lives in
`crate::file`, outside the provided sources.  Only the fields the claims
compare are carried; the claims never compute with them. -/
structure Kstat where
  ino : Nat
  mode : Nat
  uid : Nat
  gid : Nat
  size : Nat
  atime : Nat
  mtime : Nat
  ctime : Nat
  deriving DecidableEq, Repr

/-- The Linux-ABI `stat` record as written to user space. -/
structure LinuxStat where
  st_ino : Nat
  st_mode : Nat
  st_uid : Nat
  st_gid : Nat
  st_size : Nat
  st_atime : Nat
  st_mtime : Nat
  st_ctime : Nat
  deriving DecidableEq, Repr

/-- The `Kstat -> stat` conversion (`.into()` in the Rust sources): lossless
field-wise copy, per spec section 3. -/
def kstatToStat (k : Kstat) : LinuxStat :=
  { st_ino := k.ino, st_mode := k.mode, st_uid := k.uid, st_gid := k.gid
    st_size := k.size, st_atime := k.atime, st_mtime := k.mtime
    st_ctime := k.ctime }

/-- Modelled from the spec: a user-supplied C-string pointer as seen through
the Pointer Boundary (spec section 4.1): the null sentinel, a mapped valid
string, or an address whose validation fails. -/
inductive UserCStr where
  | null
  | mapped (s : String)
  | invalid
  deriving DecidableEq, Repr

/-- Modelled from the spec: a user-supplied typed const pointer
(`UserConstPtr<T>`): null, mapped to a value, or unmapped. -/
inductive UserPtrIn (α : Type) where
  | null
  | mapped (v : α)
  | unmapped
  deriving DecidableEq, Repr

/-- Modelled from the spec: a user-supplied mutable output pointer
(`UserPtr<T>`); only its validation status matters to the claims, the value
written through it is reported in the syscall result. -/
inductive UserPtrOut where
  | null
  | mapped
  | unmapped
  deriving DecidableEq, Repr

/-- The `nullable!(p.get_as_str())` idiom: a null pointer yields "absent",
a mapped pointer yields its string, a bad address fails with
invalid-address. -/
def nullableGetStr : UserCStr → Except LinuxError (Option String)
  | .null => .ok none
  | .mapped s => .ok (some s)
  | .invalid => .error .EFAULT

/-- `UserPtr::get_as_mut` reduced to its validation outcome: only a mapped
pointer passes; null or unmapped addresses fail with invalid-address. -/
def outPtrCheck : UserPtrOut → Except LinuxError Unit
  | .mapped => .ok ()
  | _ => .error .EFAULT

/-- Modelled from the spec: a live object behind an open descriptor
(`dyn FileLike`); for the claims only its `stat()` behaviour is relevant. -/
structure FileLike where
  statResult : Except LinuxError Kstat

/-- The descriptor table (external collaborator, spec section 6): an
optional-valued map from descriptor values to live objects. -/
def FdTable : Type := Int → Option FileLike

/-- Modelled from the spec: `get_file_like(fd)` — descriptor-table lookup,
failing with bad-descriptor when `fd` is not open (spec section 6). -/
def get_file_like (tbl : FdTable) (fd : Int) : Except LinuxError FileLike :=
  match tbl fd with
  | some f => .ok f
  | none => .error .EBADF

/-- Opaque backend handle for an opened regular file. -/
abbrev FileHandle : Type := Nat

/-- Opaque backend handle for an opened directory. -/
abbrev DirHandle : Type := Nat

/-- The filesystem backend interface consumed by this layer (spec section
6): kind-specific open operations plus attribute queries on the resulting
handles.  `fileStat`/`dirStat` model `File::new(h, path).stat()` and
`Directory::new(h, path).stat()`; `filePerm`/`dirPerm` model
`h.get_attr()?.perm()`. -/
structure FsBackend where
  openFile : String → Except AxError FileHandle
  openDir : String → Except AxError DirHandle
  fileStat : FileHandle → Except LinuxError Kstat
  dirStat : DirHandle → Except LinuxError Kstat

/-- `stat_at_path` from `stat.rs`: open the path as a regular file; on
`IsADirectory` retry as a directory; forward any other failure converted to
its errno-equivalent. -/
def stat_at_path (B : FsBackend) (path : String) : Except LinuxError Kstat :=
  match B.openFile path with
  | .ok file => B.fileStat file
  | .error .IsADirectory =>
    match B.openDir path with
    | .ok dir => B.dirStat dir
    | .error e => .error e.toLinuxError
  | .error e => .error e.toLinuxError

/-- `AT_EMPTY_PATH` flag bit (linux_raw_sys). -/
def AT_EMPTY_PATH : Nat := 4096

/-- `AT_FDCWD` sentinel descriptor (linux_raw_sys). -/
def AT_FDCWD : Int := -100

/-- True when the resolved optional path is absent or the empty string
(`path.is_none_or(|s| s.is_empty())`). -/
def pathAbsentOrEmpty : Option String → Bool
  | none => true
  | some s => s.isEmpty

/-- `sys_fstat(fd, statbuf)`: look up the descriptor, query its metadata,
then write the converted record through the output pointer.  The result
pairs the return value with the record written to `statbuf` (the
right-hand side of the Rust assignment is evaluated before the output
pointer is validated). -/
def sys_fstat (tbl : FdTable) (fd : Int) (statbuf : UserPtrOut) :
    Except LinuxError (Int × LinuxStat) := do
  let f ← get_file_like tbl fd
  let k ← f.statResult
  outPtrCheck statbuf
  pure (0, kstatToStat k)

/-- `sys_fstatat(dirfd, path, statbuf, flags)`: with an absent or empty path
the empty-path flag selects the descriptor itself (else no-such-entry);
otherwise the path is resolved relative to `dirfd` (`handle_file_path`,
passed in as `hfp`) and queried with `stat_at_path`. -/
def sys_fstatat (B : FsBackend) (tbl : FdTable)
    (hfp : Int → String → Except LinuxError String)
    (dirfd : Int) (path : UserCStr) (statbuf : UserPtrOut) (flags : Nat) :
    Except LinuxError (Int × LinuxStat) := do
  let p ← nullableGetStr path
  let k ←
    if pathAbsentOrEmpty p then
      if flags &&& AT_EMPTY_PATH = 0 then throw LinuxError.ENOENT
      else do
        let f ← get_file_like tbl dirfd
        f.statResult
    else do
      let rp ← hfp dirfd (p.getD "")
      stat_at_path B rp
  outPtrCheck statbuf
  pure (0, kstatToStat k)

/-- Owner permission bits exposed by `get_attr()?.perm()` (spec section
4.3: only owner read/write/execute are consulted). -/
structure Permissions where
  owner_readable : Bool
  owner_writable : Bool
  owner_executable : Bool
  deriving DecidableEq, Repr

/-- Access-mode bit values (linux_raw_sys): `R_OK`. -/
def R_OK : Nat := 4

/-- Access-mode bit values (linux_raw_sys): `W_OK`. -/
def W_OK : Nat := 2

/-- Access-mode bit values (linux_raw_sys): `X_OK`. -/
def X_OK : Nat := 1

/-- `AccessFlags::from_bits(mode)`: succeeds exactly when no bit outside
`R_OK | W_OK | X_OK` is set, returning the bitset unchanged. -/
def accessFlagsFromBits (mode : Nat) : Option Nat :=
  if mode &&& (R_OK ||| W_OK ||| X_OK) = mode then some mode else none

/-- The backend interface consumed by `sys_faccessat2`: path resolution
relative to a descriptor (`resolve_path_with_parent`, passed through as
`resolvePath`), kind-specific open, and permission query on the opened
handle. -/
structure AccessBackend where
  resolvePath : Int → String → Except LinuxError String
  openFile : String → Except AxError FileHandle
  openDir : String → Except AxError DirHandle
  filePerm : FileHandle → Except LinuxError Permissions
  dirPerm : DirHandle → Except LinuxError Permissions

/-- The open-and-query-permissions step of `sys_faccessat2`: try the path as
a file, on any open failure try it as a directory, and if both opens fail
report no-such-entry. -/
def faccessPerms (B : AccessBackend) (rp : String) :
    Except LinuxError Permissions :=
  match B.openFile rp with
  | .ok file => B.filePerm file
  | .error _ =>
    match B.openDir rp with
    | .ok dir => B.dirPerm dir
    | .error _ => .error .ENOENT

/-- `sys_faccessat2(dirfd, path, mode, flags)`: mode 0 short-circuits to
success; otherwise the mode bits are validated, the path is unwrapped
(a `panic!` when it was the null sentinel), resolved and opened, and the
requested bits are tested against the owner bits of the target — with the
accumulator initialised to `true` and combined by `|=`, exactly as the
source does. -/
def sys_faccessat2 (B : AccessBackend) (dirfd : Int) (path : UserCStr)
    (mode : Nat) (flags : Nat) : SysOut Int :=
  match nullableGetStr path with
  | .error e => .err e
  | .ok p =>
    if mode = 0 then .ok 0
    else
      match accessFlagsFromBits mode with
      | none => .err .EINVAL
      | some m =>
        match p with
        | none => .panicked
        | some s =>
          match B.resolvePath dirfd s with
          | .error e => .err e
          | .ok rp =>
            match faccessPerms B rp with
            | .error e => .err e
            | .ok perms =>
              let access := true
              let access :=
                if m &&& R_OK ≠ 0 then access || perms.owner_readable
                else access
              let access :=
                if m &&& W_OK ≠ 0 then access || perms.owner_writable
                else access
              let access :=
                if m &&& X_OK ≠ 0 then access || perms.owner_executable
                else access
              if access then .ok 0 else .err .EACCES

/-- `sys_access(path, mode)`: delegates to `sys_faccessat2` with the
current-working-directory sentinel and no flags. -/
def sys_access (B : AccessBackend) (path : UserCStr) (mode : Nat) :
    SysOut Int :=
  sys_faccessat2 B AT_FDCWD path mode 0

/-- Modelled from the spec: `RLIM_NLIMITS`, the fixed count of the closed
resource-kind enumeration (spec section 3); 16 on Linux. -/
def RLIM_NLIMITS : Nat := 16

/-- Modelled from the spec: `starry_core::resources::ResourceLimitType`,
a closed enumeration with `RLIM_NLIMITS` values, identified here with
`Fin RLIM_NLIMITS`. -/
abbrev ResourceLimitType : Type := Fin RLIM_NLIMITS

/-- `ResourceLimitType::try_from(r)`: defined exactly on raw values below
`RLIM_NLIMITS`. -/
def resourceLimitTypeTryFrom (r : Nat) : Option ResourceLimitType :=
  if h : r < RLIM_NLIMITS then some ⟨r, h⟩ else none

/-- `ResourceLimit`: a (soft, hard) bound pair (both u64; only compared,
never computed with). -/
structure ResourceLimit where
  soft : Nat
  hard : Nat
  deriving DecidableEq, Repr

/-- Modelled from the spec: the per-process resource-limit table of
`starry_core::resources` (spec sections 3 and 4.5): a total map from limit
kind to its current (soft, hard) bound. -/
structure ResourceLimits where
  table : ResourceLimitType → ResourceLimit

/-- Modelled from the spec: `ResourceLimits::get` returns a copy of the
stored bound for the kind. -/
def ResourceLimits.get (l : ResourceLimits) (r : ResourceLimitType) :
    ResourceLimit :=
  l.table r

/-- Modelled from the spec: `ResourceLimits::set` refuses (returning
`false`, table unchanged) when the new soft bound exceeds the new hard
bound, and otherwise replaces the stored bound (the in-source comment at
the `EINVAL` branch of `do_setrlimit` records the `soft > hard` cause). -/
def ResourceLimits.set (l : ResourceLimits) (r : ResourceLimitType)
    (v : ResourceLimit) : Bool × ResourceLimits :=
  if v.soft > v.hard then (false, l)
  else (true, ⟨fun x => if x = r then v else l.table x⟩)

/-- The process-registry view the resource syscalls consume: the calling
limits of the calling process plus a map from nonzero pids to the limits of
other live processes (spec section 6: `resolve(pid)` fails with
no-such-process). -/
structure System where
  current : ResourceLimits
  procs : Nat → Option ResourceLimits

/-- Resolve a target pid: 0 means the calling process, anything else is a
registry lookup. -/
def System.getProc (sys : System) (pid : Nat) : Option ResourceLimits :=
  if pid = 0 then some sys.current else sys.procs pid

/-- Store back the limits of a resolved target process. -/
def System.setProc (sys : System) (pid : Nat) (l : ResourceLimits) :
    System :=
  if pid = 0 then { sys with current := l }
  else { sys with procs := fun q => if q = pid then some l else sys.procs q }

/-- `do_getrlimit(resource, pid)`: resolve the target process (no-such-
process on failure) and return a copy of the stored bound. -/
def do_getrlimit (sys : System) (resource : ResourceLimitType) (pid : Nat) :
    Except LinuxError ResourceLimit :=
  match sys.getProc pid with
  | none => .error .ESRCH
  | some l => .ok (l.get resource)

/-- `do_setrlimit(resource, limit, pid)`: resolve the target process, reject
with permission-denied when the new hard bound exceeds the stored hard
bound, reject with invalid-argument when the table refuses the new value
(soft > hard), and otherwise store it.  The second component is the
registry after the call. -/
def do_setrlimit (sys : System) (resource : ResourceLimitType)
    (limit : ResourceLimit) (pid : Nat) :
    Except LinuxError Int × System :=
  match sys.getProc pid with
  | none => (.error .ESRCH, sys)
  | some l =>
    let old := l.get resource
    if limit.hard > old.hard then (.error .EPERM, sys)
    else
      let res := l.set resource limit
      if res.1 then (.ok 0, sys.setProc pid res.2)
      else (.error .EINVAL, sys)

/-- `sys_setrlimit(resource, resource_limit)`: parse the kind, read the new
value through the const pointer, and apply it to the calling process
(pid 0). -/
def sys_setrlimit (sys : System) (resource : Nat)
    (resource_limit : UserPtrIn ResourceLimit) :
    Except LinuxError Int × System :=
  match resourceLimitTypeTryFrom resource with
  | none => (.error .EINVAL, sys)
  | some r =>
    match resource_limit with
    | .mapped v => do_setrlimit sys r v 0
    | _ => (.error .EFAULT, sys)

/-- `sys_getrlimit(resource, resource_limit)`: parse the kind, read the
bound of the calling process, then write it through the output pointer; the
second component is the value written (absent when validation failed
first). -/
def sys_getrlimit (sys : System) (resource : Nat) (out : UserPtrOut) :
    Except LinuxError Int × Option ResourceLimit :=
  match resourceLimitTypeTryFrom resource with
  | none => (.error .EINVAL, none)
  | some r =>
    match do_getrlimit sys r 0 with
    | .error e => (.error e, none)
    | .ok old =>
      match out with
      | .mapped => (.ok 0, some old)
      | _ => (.error .EFAULT, none)

/-- `sys_prlimit64(pid, resource, new_limit, old_limit)`: parse the kind;
when `old_limit` is non-null, read the current bound of the target and write it
through the pointer with `get_as_mut().unwrap()` — a `panic!` when the
pointer does not validate; when `new_limit` is non-null, read it (typed
invalid-address failure on a bad pointer) and apply `do_setrlimit`.  The
result carries the outcome, the registry afterwards, and the old bound
written through `old_limit` (if any). -/
def sys_prlimit64 (sys : System) (pid : Nat) (resource : Nat)
    (new_limit : UserPtrIn ResourceLimit) (old_limit : UserPtrOut) :
    SysOut Int × System × Option ResourceLimit :=
  match resourceLimitTypeTryFrom resource with
  | none => (.err .EINVAL, sys, none)
  | some r =>
    let step1 : SysOut Unit × Option ResourceLimit :=
      match old_limit with
      | .null => (.ok (), none)
      | .mapped =>
        match do_getrlimit sys r pid with
        | .error e => (.err e, none)
        | .ok old => (.ok (), some old)
      | .unmapped =>
        match do_getrlimit sys r pid with
        | .error e => (.err e, none)
        | .ok _ => (.panicked, none)
    match step1 with
    | (.err e, w) => (.err e, sys, w)
    | (.panicked, w) => (.panicked, sys, w)
    | (.ok _, w) =>
      match new_limit with
      | .null => (.ok 0, sys, w)
      | .unmapped => (.err .EFAULT, sys, w)
      | .mapped v =>
        match do_setrlimit sys r v pid with
        | (.ok _, sys2) => (.ok 0, sys2, w)
        | (.error e, sys2) => (.err e, sys2, w)

/-! Concrete fixtures used to instantiate the theorems below. -/

/-- A permission record with every owner bit clear (file mode 000). -/
def permsNone : Permissions := ⟨false, false, false⟩

/-- An access backend in which every path resolves to itself and opens as a
regular file whose owner permission bits are all clear. -/
def B0 : AccessBackend where
  resolvePath := fun _ s => .ok s
  openFile := fun _ => .ok 0
  openDir := fun _ => .error .NotFound
  filePerm := fun _ => .ok permsNone
  dirPerm := fun _ => .ok permsNone

/-- A fixed metadata record for the fstat fixtures. -/
def kstat0 : Kstat := ⟨7, 33188, 0, 0, 500000, 1, 2, 3⟩

/-- A live descriptor object whose `stat()` succeeds with `kstat0`. -/
def fileLike0 : FileLike := ⟨.ok kstat0⟩

/-- A descriptor table in which only descriptor 3 is open. -/
def tbl0 : FdTable := fun fd => if fd = 3 then some fileLike0 else none

/-- A filesystem backend in which no path exists. -/
def Bfs0 : FsBackend where
  openFile := fun _ => .error .NotFound
  openDir := fun _ => .error .NotFound
  fileStat := fun _ => .error .EINVAL
  dirStat := fun _ => .error .EINVAL

/-- A filesystem backend in which every path opens as a directory whose
metadata is `kstat0`. -/
def Bdir : FsBackend where
  openFile := fun _ => .error .IsADirectory
  openDir := fun _ => .ok 0
  fileStat := fun _ => .error .EINVAL
  dirStat := fun _ => .ok kstat0

/-- A trivial `handle_file_path` fixture returning the raw path. -/
def hfp0 : Int → String → Except LinuxError String := fun _ s => .ok s

/-- A limits table whose every kind holds (soft 1000, hard 2000). -/
def limits0 : ResourceLimits := ⟨fun _ => ⟨1000, 2000⟩⟩

/-- A registry with `limits0` as the calling process and no other pid
resolvable. -/
def sys0 : System := ⟨limits0, fun _ => none⟩

/-- The empty string is empty. -/
theorem isEmpty_empty_string : "".isEmpty = true := rfl

/-- `resourceLimitTypeTryFrom` is a retraction of `Fin.val`. -/
theorem resourceLimitTypeTryFrom_val (r : ResourceLimitType) :
    resourceLimitTypeTryFrom r.val = some r := by
  simp [resourceLimitTypeTryFrom, r.isLt]

/-- Claim C8: for every backend and every path pointer that validates
(including the null sentinel), `faccessat2` with mode 0 — and `access`
with mode 0 — return success without any existence check: the theorem
quantifies over every backend, including ones in which no path exists. -/
theorem C8_access_mode_zero_ok (B : AccessBackend) (dirfd : Int)
    (flags : Nat) (path : UserCStr) (h : path ≠ UserCStr.invalid) :
    sys_faccessat2 B dirfd path 0 flags = .ok 0 ∧
      sys_access B path 0 = .ok 0 := by
  cases path with
  | null => exact ⟨rfl, rfl⟩
  | mapped s => exact ⟨rfl, rfl⟩
  | invalid => exact absurd rfl h

/-- Witness for C8 at a concrete null path. -/
theorem C8_access_mode_zero_ok_witness :
    sys_faccessat2 B0 7 UserCStr.null 0 0 = .ok 0 ∧
      sys_access B0 UserCStr.null 0 = .ok 0 :=
  C8_access_mode_zero_ok B0 7 0 UserCStr.null (by decide)

/-- Claim C10: `prlimit64` with both the new-limit and the old-limit
pointers null returns 0 for every registry and every pid — including pids
that resolve to no process — and leaves the registry unchanged; the pid is
never resolved. -/
theorem C10_prlimit64_null_null_ok (sys : System) (pid : Nat)
    (r : ResourceLimitType) :
    sys_prlimit64 sys pid r.val .null .null = (.ok 0, sys, none) := by
  rw [sys_prlimit64, resourceLimitTypeTryFrom_val]

/-- Claim C1 (counterexample): on a backend whose file at "/f" exists with
owner permission bits all clear, `faccessat2` with mode `R_OK` returns
success instead of the permission-denied failure the claim requires. -/
theorem C1_counterexample :
    B0.filePerm 0 = .ok permsNone ∧
      permsNone.owner_readable = false ∧
      sys_faccessat2 B0 AT_FDCWD (UserCStr.mapped "/f") R_OK 0 = .ok 0 :=
  ⟨rfl, rfl, rfl⟩

/-- Claim C1 (amended): for every nonzero mode that validates and every
path that resolves and opens (as file or directory) with any permission
bits whatsoever, `faccessat2` returns success: the access accumulator is
initialised to `true` and only ever OR-ed, so the permission-denied branch
is unreachable. -/
theorem C1_faccessat2_always_ok (B : AccessBackend) (dirfd : Int)
    (s : String) (mode flags m : Nat) (rp : String) (perms : Permissions)
    (hm : mode ≠ 0) (hbits : accessFlagsFromBits mode = some m)
    (hrp : B.resolvePath dirfd s = .ok rp)
    (hperm : faccessPerms B rp = .ok perms) :
    sys_faccessat2 B dirfd (UserCStr.mapped s) mode flags = .ok 0 := by
  rw [sys_faccessat2]
  simp only [nullableGetStr, if_neg hm, hbits, hrp, hperm]
  split <;> split <;> split <;> simp

/-- Witness for the amended C1 at mode `R_OK ||| W_OK` on the
no-permission backend. -/
theorem C1_faccessat2_always_ok_witness :
    sys_faccessat2 B0 AT_FDCWD (UserCStr.mapped "/w") 6 0 = .ok 0 :=
  C1_faccessat2_always_ok B0 AT_FDCWD "/w" 6 0 6 "/w" permsNone
    (by decide) rfl rfl rfl

/-- Claim C2: the dispatch layer does panic on malformed but well-typed
input, contradicting the no-panic claim: `prlimit64` with a non-null but
unmapped old-limit pointer reaches `get_as_mut().unwrap()`, and
`faccessat2` with a null path pointer and a nonzero mode reaches
`path.unwrap()`. -/
theorem C2_unwrap_panics :
    sys_prlimit64 sys0 0 0 UserPtrIn.null UserPtrOut.unmapped =
        (.panicked, sys0, none) ∧
      sys_faccessat2 B0 AT_FDCWD UserCStr.null R_OK 0 = .panicked :=
  ⟨rfl, rfl⟩

/-- Claim C3: for every backend, descriptor table, descriptor value and
flags word with the empty-path bit clear, `fstatat` on a null or empty path
fails with no-such-entry; the universally quantified descriptor table shows
it is never consulted. -/
theorem C3_fstatat_empty_path_enoent (B : FsBackend) (tbl : FdTable)
    (hfp : Int → String → Except LinuxError String) (dirfd : Int)
    (statbuf : UserPtrOut) (flags : Nat) (path : UserCStr)
    (hpath : path = UserCStr.null ∨ path = UserCStr.mapped "")
    (hflags : flags &&& AT_EMPTY_PATH = 0) :
    sys_fstatat B tbl hfp dirfd path statbuf flags = .error .ENOENT := by
  rcases hpath with h | h <;> subst h <;>
    simp [sys_fstatat, nullableGetStr, pathAbsentOrEmpty, hflags, throw,
      throwThe, MonadExceptOf.throw, Except.instMonad, Except.bind,
      isEmpty_empty_string]

/-- Witness for C3: empty path, flags 0, an invalid descriptor, a table in
which it is open anyway. -/
theorem C3_fstatat_empty_path_enoent_witness :
    sys_fstatat Bfs0 tbl0 hfp0 3 UserCStr.null UserPtrOut.mapped 0 =
      .error .ENOENT :=
  C3_fstatat_empty_path_enoent Bfs0 tbl0 hfp0 3 UserPtrOut.mapped 0
    UserCStr.null (Or.inl rfl) rfl

/-- Claim C4: with a null or empty path and the empty-path flag set,
`fstatat` computes exactly what `fstat` computes on the descriptor — for
every descriptor table and backend — and for a valid open descriptor whose
`stat()` succeeds and a mapped output buffer, both return 0 after writing
the same converted metadata. -/
theorem C4_fstatat_empty_path_matches_fstat (B : FsBackend) (tbl : FdTable)
    (hfp : Int → String → Except LinuxError String) (fd : Int)
    (path : UserCStr) (statbuf : UserPtrOut) (flags : Nat)
    (hpath : path = UserCStr.null ∨ path = UserCStr.mapped "")
    (hflags : flags &&& AT_EMPTY_PATH ≠ 0) :
    sys_fstatat B tbl hfp fd path statbuf flags = sys_fstat tbl fd statbuf ∧
      ∀ f k, tbl fd = some f → f.statResult = .ok k →
        statbuf = UserPtrOut.mapped →
        sys_fstatat B tbl hfp fd path statbuf flags =
          .ok (0, kstatToStat k) := by
  have heq : sys_fstatat B tbl hfp fd path statbuf flags =
      sys_fstat tbl fd statbuf := by
    rcases hpath with h | h <;> subst h <;>
      simp [sys_fstatat, sys_fstat, nullableGetStr, pathAbsentOrEmpty,
        hflags, Except.instMonad, Except.bind, isEmpty_empty_string]
  refine ⟨heq, fun f k hf hk hbuf => ?_⟩
  subst hbuf
  rw [heq]
  simp [sys_fstat, get_file_like, hf, hk, outPtrCheck, Except.instMonad,
    Except.bind, pure, Except.pure]

/-- Witness for C4: descriptor 3 open on `fileLike0`, empty path, the
empty-path flag set. -/
theorem C4_fstatat_empty_path_matches_fstat_witness :
    sys_fstatat Bfs0 tbl0 hfp0 3 (UserCStr.mapped "") UserPtrOut.mapped
        AT_EMPTY_PATH = sys_fstat tbl0 3 UserPtrOut.mapped ∧
      sys_fstatat Bfs0 tbl0 hfp0 3 (UserCStr.mapped "") UserPtrOut.mapped
        AT_EMPTY_PATH = .ok (0, kstatToStat kstat0) := by
  have h := C4_fstatat_empty_path_matches_fstat Bfs0 tbl0 hfp0 3
    (UserCStr.mapped "") UserPtrOut.mapped AT_EMPTY_PATH (Or.inr rfl)
    (by decide)
  exact ⟨h.1, h.2 fileLike0 kstat0 rfl rfl rfl⟩

/-- Claim C5: for every registry, resolvable target and limit kind, a new
value whose hard bound strictly exceeds the stored hard bound is rejected
with permission-denied and the registry — hence the stored (soft, hard)
pair — is unchanged. -/
theorem C5_setrlimit_raise_hard_eperm (sys : System)
    (r : ResourceLimitType) (v : ResourceLimit) (pid : Nat)
    (l : ResourceLimits) (hproc : sys.getProc pid = some l)
    (hgt : v.hard > (l.get r).hard) :
    do_setrlimit sys r v pid = (.error .EPERM, sys) := by
  rw [do_setrlimit, hproc]
  simp [hgt]

/-- Witness for C5: raising the hard bound from 2000 to 3000. -/
theorem C5_setrlimit_raise_hard_eperm_witness :
    do_setrlimit sys0 ⟨0, by decide⟩ ⟨0, 3000⟩ 0 = (.error .EPERM, sys0) :=
  C5_setrlimit_raise_hard_eperm sys0 ⟨0, by decide⟩ ⟨0, 3000⟩ 0 limits0
    rfl (by decide)

/-- Claim C6: for every registry, resolvable target and limit kind, a new
value with soft above hard (the hard bound not exceeding the stored hard
bound) is rejected with invalid-argument and the registry is unchanged. -/
theorem C6_setrlimit_soft_gt_hard_einval (sys : System)
    (r : ResourceLimitType) (v : ResourceLimit) (pid : Nat)
    (l : ResourceLimits) (hproc : sys.getProc pid = some l)
    (hsv : v.soft > v.hard) (hhard : ¬v.hard > (l.get r).hard) :
    do_setrlimit sys r v pid = (.error .EINVAL, sys) := by
  rw [do_setrlimit, hproc]
  simp [hhard, ResourceLimits.set, hsv]

/-- Witness for C6: soft 1500 above hard 1000, hard within the stored
bound 2000. -/
theorem C6_setrlimit_soft_gt_hard_einval_witness :
    do_setrlimit sys0 ⟨0, by decide⟩ ⟨1500, 1000⟩ 0 =
      (.error .EINVAL, sys0) :=
  C6_setrlimit_soft_gt_hard_einval sys0 ⟨0, by decide⟩ ⟨1500, 1000⟩ 0
    limits0 rfl (by decide) (by decide)

/-- Inversion for a successful `do_setrlimit`: the target resolved, the
new value is well-formed, and the registry now stores it for the kind. -/
theorem do_setrlimit_ok (sys : System) (r : ResourceLimitType)
    (v : ResourceLimit) (pid : Nat) (sys2 : System)
    (h : do_setrlimit sys r v pid = (.ok 0, sys2)) :
    ∃ l, sys.getProc pid = some l ∧ v.soft ≤ v.hard ∧
      sys2 = sys.setProc pid ⟨fun x => if x = r then v else l.table x⟩ := by
  unfold do_setrlimit at h
  cases hg : sys.getProc pid with
  | none => rw [hg] at h; simp at h
  | some l =>
    rw [hg] at h
    dsimp only at h
    refine ⟨l, rfl, ?_⟩
    by_cases h1 : v.hard > (l.get r).hard
    · rw [if_pos h1] at h; simp at h
    · rw [if_neg h1] at h
      unfold ResourceLimits.set at h
      by_cases h2 : v.soft > v.hard
      · rw [if_pos h2] at h; simp at h
      · rw [if_neg h2] at h
        simp at h
        exact ⟨Nat.le_of_not_lt h2, h.symm⟩

/-- Claim C7: whenever `setrlimit(kind, {soft 100, hard 200})` succeeds,
an immediately following `getrlimit(kind)` on the same process returns
exactly (soft 100, hard 200) and writes it through the output pointer. -/
theorem C7_setrlimit_getrlimit_roundtrip (sys : System)
    (r : ResourceLimitType) (sys2 : System)
    (h : sys_setrlimit sys r.val (UserPtrIn.mapped ⟨100, 200⟩) =
      (.ok 0, sys2)) :
    sys_getrlimit sys2 r.val UserPtrOut.mapped =
      (.ok 0, some ⟨100, 200⟩) := by
  rw [sys_setrlimit, resourceLimitTypeTryFrom_val] at h
  obtain ⟨l, hg, hsv, h2⟩ := do_setrlimit_ok sys r ⟨100, 200⟩ 0 sys2 h
  subst h2
  rw [sys_getrlimit, resourceLimitTypeTryFrom_val]
  simp [do_getrlimit, System.getProc, System.setProc, ResourceLimits.get]

/-- Witness for C7: the round trip on the concrete registry `sys0`. -/
theorem C7_setrlimit_getrlimit_roundtrip_witness :
    sys_getrlimit
        (sys_setrlimit sys0 0 (UserPtrIn.mapped ⟨100, 200⟩)).2 0
        UserPtrOut.mapped = (.ok 0, some ⟨100, 200⟩) :=
  C7_setrlimit_getrlimit_roundtrip sys0 ⟨0, by decide⟩ _ rfl

/-- Claim C9: `stat_at_path` opens the path as a regular file; exactly when
that open fails with is-a-directory it retries as a directory; any other
open failure is forwarded unchanged as its errno-equivalent.  The first and
third parts hold for every directory-open behaviour, showing the directory
machinery is not consulted outside the is-a-directory case. -/
theorem C9_stat_at_path_two_phase (B : FsBackend) (p : String) :
    (∀ f, B.openFile p = .ok f → ∀ od ds,
      stat_at_path { B with openDir := od, dirStat := ds } p =
        B.fileStat f) ∧
    (B.openFile p = .error .IsADirectory →
      stat_at_path B p =
        match B.openDir p with
        | .ok d => B.dirStat d
        | .error e => .error e.toLinuxError) ∧
    (∀ e, e ≠ AxError.IsADirectory → B.openFile p = .error e → ∀ od ds,
      stat_at_path { B with openDir := od, dirStat := ds } p =
        .error e.toLinuxError) := by
  refine ⟨fun f hf od ds => ?_, fun hdir => ?_, fun e hne he od ds => ?_⟩
  · simp [stat_at_path, hf]
  · simp only [stat_at_path]
    rw [hdir]
  · cases e <;> simp_all [stat_at_path, AxError.toLinuxError]

/-- Witness for C9 on a backend whose file open reports is-a-directory. -/
theorem C9_stat_at_path_two_phase_witness :
    stat_at_path Bdir "/d" = .ok kstat0 :=
  (C9_stat_at_path_two_phase Bdir "/d").2.1 rfl

end WenyiOS
